import Mathlib

/-!
Shallow embedding of the OAuth2 token-lifecycle core of the
`google-workspace-apis` repository (files `src/auth/client.rs`,
`src/auth/mod.rs`, `src/auth/scopes.rs`), together with theorems settling
the specification claims about it. The repository carries two revisions of
the token manager, `src/auth/client.rs` and `src/auth/types.rs`; the manager
below follows `client.rs`, and the one method on which the two revisions
genuinely differ — `update_access_token`'s handling of the HTTP client — is
embedded separately for the `types.rs` revision.

Modelling conventions:
* Instants (`chrono::DateTime<Utc>`) are integers in milliseconds; the exact
  unit is irrelevant as long as `chrono::Duration::seconds` is an exact
  multiplication, which it is (chrono stores nanoseconds; no rounding occurs
  for whole seconds).
* The network round trip performed by `refresh_acces_token` inside
  `update_access_token` is an oracle parameter: the manager-level functions
  take the exchange's outcome (`Except String AccessToken`) and the current
  instant as explicit arguments, exactly as the Rust code consumes them.
* `&mut self` methods become functions `GoogleClient → ... → GoogleClient × ...`
  returning the post state; the Rust `?` early return on a failed refresh
  returns the untouched receiver.
* Registered refresh handlers (`Vec<Arc<dyn TokenRefreshHandler>>`) are opaque
  identifiers (`Nat`); a handler invocation is recorded as an event
  `(handler, new token, refresh token, new expiry)` in the list of calls the
  operation performs, in order.
* A Rust value whose computation can panic (an `unwrap` on a failure) is
  embedded in `Option`, with `none` for the panic.
-/

/-- Wire DTO returned by the token endpoint (`AccessToken` in
`src/auth/client.rs`). `expires_in` is relative seconds. -/
structure AccessToken where
  token_type : String
  access_token : String
  expires_in : Int
  refresh_token : String
  refresh_token_expires_in : Int
  scope : String
deriving Repr, DecidableEq

/-- Rust `Default` for `AccessToken` (all fields empty / zero). -/
def AccessToken.default : AccessToken :=
  { token_type := ""
    access_token := ""
    expires_in := 0
    refresh_token := ""
    refresh_token_expires_in := 0
    scope := "" }

/-- Internal token state (`ClientTokenData` in `src/auth/client.rs`).
`expires_on` is an absolute instant (milliseconds). -/
structure ClientTokenData where
  access_token : String
  expires_on : Int
  refresh_token : String
deriving Repr, DecidableEq

/-- `ClientCredentials` in `src/auth/client.rs`. -/
structure ClientCredentials where
  client_id : String
  client_secret : String
  redirect_uri : String
  refresh_token : String
deriving Repr, DecidableEq

/-- `chrono::Duration::seconds` as a number of milliseconds. -/
def durationSeconds (s : Int) : Int := s * 1000

/-- The `reqwest::Client` as far as this library configures it: its default
headers. A fresh `reqwest::Client::default()` carries no default headers. -/
structure ReqwestClient where
  authorization : Option String
  accept : Option String
  content_type : Option String
deriving Repr, DecidableEq

/-- `reqwest::Client::default()`: no default headers. -/
def ReqwestClient.default : ReqwestClient :=
  { authorization := none, accept := none, content_type := none }

/-- `build_default_reqwest_client` (`src/auth/client.rs` lines 213-228):
Authorization set to the bearer token, Accept and Content-Type to JSON. -/
def build_default_reqwest_client (token : String) : ReqwestClient :=
  { authorization := some ("Bearer " ++ token)
    accept := some "application/json"
    content_type := some "application/json" }

/-- One `on_token_refresh` call: (handler, new token, refresh token, new
expiry), as passed in `update_access_token`'s notification loop. -/
abbrev TokenRefreshEvent := Nat × String × String × Int

/-- The token manager (`GoogleClient` in `src/auth/client.rs`). Handlers are
opaque identifiers, kept in registration order (`Vec::push` appends). -/
structure GoogleClient where
  client_credentials : ClientCredentials
  access_token : Option ClientTokenData
  req_client : ReqwestClient
  auto_refresh_token : Bool
  refresh_handlers : List Nat
deriving Repr, DecidableEq

/-- Rust `Default` derive for `GoogleClient`. -/
def GoogleClient.default : GoogleClient :=
  { client_credentials :=
      { client_id := "", client_secret := "", redirect_uri := "", refresh_token := "" }
    access_token := none
    req_client := ReqwestClient.default
    auto_refresh_token := false
    refresh_handlers := [] }

/-- `impl From<AccessToken> for ClientTokenData` (`src/auth/client.rs` lines
124-134): `expires_on = now + Duration::seconds(expires_in)`, computed once at
conversion time; the access and refresh token strings are moved over. `now` is
the conversion instant (`chrono::Utc::now()`). -/
def ClientTokenData.fromAccessToken (token : AccessToken) (now : Int) : ClientTokenData :=
  { access_token := token.access_token
    expires_on := now + durationSeconds token.expires_in
    refresh_token := token.refresh_token }

/-- `GoogleClient::new` (`src/auth/client.rs` lines 137-150): builds the
bearer-header HTTP client from the initial token, converts the token at the
construction instant `now`, starts with no refresh handlers. -/
def GoogleClient.new (client_credentials : ClientCredentials) (access_token : AccessToken)
    (auto_refresh_token : Bool) (now : Int) : GoogleClient :=
  { client_credentials := client_credentials
    access_token := some (ClientTokenData.fromAccessToken access_token now)
    req_client := build_default_reqwest_client access_token.access_token
    auto_refresh_token := auto_refresh_token
    refresh_handlers := [] }

/-- `GoogleClient::add_token_refresh_handler`: `Vec::push`, i.e. append. -/
def GoogleClient.add_token_refresh_handler (c : GoogleClient) (handler : Nat) : GoogleClient :=
  { c with refresh_handlers := c.refresh_handlers ++ [handler] }

/-- `GoogleClient::enable_auto_refresh`. -/
def GoogleClient.enable_auto_refresh (c : GoogleClient) : GoogleClient :=
  { c with auto_refresh_token := true }

/-- `GoogleClient::disable_auto_refresh`. -/
def GoogleClient.disable_auto_refresh (c : GoogleClient) : GoogleClient :=
  { c with auto_refresh_token := false }

/-- `GoogleClient::is_access_token_valid` (`src/auth/client.rs` lines
174-180): with stored token data, `now < expires_on`; without, `false`. -/
def GoogleClient.is_access_token_valid (c : GoogleClient) (now : Int) : Bool :=
  match c.access_token with
  | some token_data => decide (now < token_data.expires_on)
  | none => false

/-- `GoogleClient::update_access_token` (`src/auth/client.rs` lines 182-196).
`refreshResult` is the outcome of `refresh_acces_token(&self.client_credentials)`
and `now` the instant of the `AccessToken → ClientTokenData` conversion. On a
failed exchange the `?` operator returns the error with the receiver untouched
and no handler called. On success the converted token data is installed, the
HTTP client rebuilt with the new bearer token, and every handler is called in
order with the freshly stored `(access_token, refresh_token, expires_on)`
(the `self.access_token.as_ref().unwrap()` reads resolve to the token data
just installed). Result: (post state, handler calls in order, return value). -/
def GoogleClient.update_access_token (c : GoogleClient)
    (refreshResult : Except String AccessToken) (now : Int) :
    GoogleClient × List TokenRefreshEvent × Except String Unit :=
  match refreshResult with
  | .error e => (c, [], .error e)
  | .ok new_token =>
    let tokenData := ClientTokenData.fromAccessToken new_token now
    let client := build_default_reqwest_client new_token.access_token
    let c2 : GoogleClient := { c with access_token := some tokenData, req_client := client }
    let events := c2.refresh_handlers.map (fun handler =>
      (handler, tokenData.access_token, tokenData.refresh_token, tokenData.expires_on))
    (c2, events, .ok ())

/-- `GoogleClient::refresh_access_token_check` (`src/auth/client.rs` lines
159-164): refreshes only when auto-refresh is on and the token is not valid;
otherwise does nothing and returns `Ok(())`. -/
def GoogleClient.refresh_access_token_check (c : GoogleClient)
    (refreshResult : Except String AccessToken) (now : Int) :
    GoogleClient × List TokenRefreshEvent × Except String Unit :=
  if c.auto_refresh_token && !(c.is_access_token_valid now) then
    c.update_access_token refreshResult now
  else
    (c, [], .ok ())

/-- The other live revision of the manager: `GoogleClient::update_access_token`
in `src/auth/types.rs` lines 210-228 (the `auth::types::GoogleClient` consumed
by `calendar/events/requests.rs`). It installs the converted reply as the new
token data and notifies the handlers exactly like the `client.rs` variant, but
— unlike `client.rs` lines 185-186 — it never rebuilds `req_client`, so the
HTTP client and its Authorization header are left as they were. -/
def GoogleClient.update_access_token_types_variant (c : GoogleClient)
    (refreshResult : Except String AccessToken) (now : Int) :
    GoogleClient × List TokenRefreshEvent × Except String Unit :=
  match refreshResult with
  | .error e => (c, [], .error e)
  | .ok new_token =>
    let tokenData := ClientTokenData.fromAccessToken new_token now
    let c2 : GoogleClient := { c with access_token := some tokenData }
    let events := c2.refresh_handlers.map (fun handler =>
      (handler, tokenData.access_token, tokenData.refresh_token, tokenData.expires_on))
    (c2, events, .ok ())

/-- The scope catalog (`Scope` in `src/auth/scopes.rs`). -/
inductive Scope
  | Calendar
  | CalendarEvents
  | CalendarEventsReadonly
  | CalendarReadOnly
  | CalendarAppCreated
  | CalendarEventsFreeBusy
  | CalendarEventsOwned
  | CalendarEventsOwnedReadonly
  | CalendarEventsPublicReadonly
  | TasksReadOnly
  | Tasks
  | Mail
  | MailModify
  | MailReadonly
  | MailMetadata
deriving Repr, DecidableEq, Fintype

/-- `Scope::as_str` (`src/auth/scopes.rs` lines 22-53), string for string. -/
def Scope.as_str : Scope → String
  | .Calendar => "https://www.googleapis.com/auth/calendar"
  | .CalendarEventsReadonly => "https://www.googleapis.com/auth/calendar.events.readonly"
  | .CalendarAppCreated => "https://www.googleapis.com/auth/calendar.app.created"
  | .CalendarEventsFreeBusy => "https://www.googleapis.com/auth/calendar.events.freebusy"
  | .CalendarEventsOwned => "https://www.googleapis.com/auth/calendar.events.owned"
  | .CalendarEventsOwnedReadonly => "https://www.googleapis.com/auth/calendar.events.owned.readonly"
  | .CalendarEventsPublicReadonly => "https://www.googleapis.com/auth/calendar.readonly"
  | .CalendarReadOnly => "https://www.googleapis.com/auth/calendar.readonly"
  | .CalendarEvents => "https://www.googleapis.com/auth/calendar.events"
  | .TasksReadOnly => "https://www.googleapis.com/auth/tasks.readonly"
  | .Tasks => "https://www.googleapis.com/auth/tasks"
  | .Mail => "https://mail.google.com"
  | .MailModify => "https://www.googleapis.com/auth/gmail.modify"
  | .MailReadonly => "https://www.googleapis.com/auth/gmail.readonly"
  | .MailMetadata => "https://www.googleapis.com/auth/gmail.metadata"

/-- `serde_json::Value`. Numbers are restricted to the integers, which is all
the token endpoint's shape uses (`expires_in` and friends are `i64`). -/
inductive JsonValue
  | null
  | bool (b : Bool)
  | num (n : Int)
  | str (s : String)
  | arr (elems : List JsonValue)
  | obj (fields : List (String × JsonValue))

/-- Field lookup inside an object's field list (first match). -/
def jsonLookup : List (String × JsonValue) → String → Option JsonValue
  | [], _ => none
  | (k, v) :: rest, key => if k = key then some v else jsonLookup rest key

/-- `serde_json::Value::index` with a string key (`json["key"]`): the field's
value on an object holding the key, `Null` otherwise. -/
def JsonValue.index (j : JsonValue) (key : String) : JsonValue :=
  match j with
  | .obj fields => (jsonLookup fields key).getD .null
  | _ => .null

/-- `serde_json::Value::as_str`. -/
def JsonValue.as_str : JsonValue → Option String
  | .str s => some s
  | _ => none

/-- `serde_json::Value::as_i64`. -/
def JsonValue.as_i64 : JsonValue → Option Int
  | .num n => some n
  | _ => none

/-- `crate::utils::deserialize::deserialize_nullable_string` applied to an
optionally-present field: absent and `null` become `""` (the field also carries
`#[serde(default)]`), a string is kept, any other shape is a decode error. -/
def deserialize_nullable_string : Option JsonValue → Option String
  | none => some ""
  | some .null => some ""
  | some (.str s) => some s
  | some _ => none

/-- An `i64` field with `#[serde(default)]`: absent becomes `0`, an integer is
kept, any other shape (including `null`) is a decode error. -/
def deserialize_default_i64 : Option JsonValue → Option Int
  | none => some 0
  | some (.num n) => some n
  | some _ => none

/-- `serde_json::from_value::<AccessToken>`: requires an object; each field is
decoded per its serde attributes in `src/auth/client.rs` lines 10-43
(`deserialize_nullable_string` on the string fields, `#[serde(default)]` on the
integers, `alias = "x_refresh_token_expires_in"` on `refresh_token_expires_in`);
unknown fields are ignored. `none` is a decode error. -/
def AccessToken.from_value (j : JsonValue) : Option AccessToken :=
  match j with
  | .obj fields => do
    let token_type ← deserialize_nullable_string (jsonLookup fields "token_type")
    let access_token ← deserialize_nullable_string (jsonLookup fields "access_token")
    let expires_in ← deserialize_default_i64 (jsonLookup fields "expires_in")
    let refresh_token ← deserialize_nullable_string (jsonLookup fields "refresh_token")
    let refresh_token_expires_in ← deserialize_default_i64
      ((jsonLookup fields "refresh_token_expires_in").orElse
        (fun _ => jsonLookup fields "x_refresh_token_expires_in"))
    let scope ← deserialize_nullable_string (jsonLookup fields "scope")
    pure { token_type := token_type
           access_token := access_token
           expires_in := expires_in
           refresh_token := refresh_token
           refresh_token_expires_in := refresh_token_expires_in
           scope := scope }
  | _ => none

/-- `reqwest::StatusCode::is_success`: 2xx. -/
def status_is_success (status : Nat) : Bool := 200 ≤ status && status < 300

/-- The token endpoint's reply as the two exchange functions observe it: the
HTTP status code and the body as parsed by `response.json::<serde_json::Value>()`
(`none` when the body is not valid JSON, so that call fails). -/
structure HttpResponse where
  status : Nat
  body : Option JsonValue

/-- The transport outcome of the POST: `Err` is a network/TLS/DNS failure. -/
abbrev TransportResult := Except String HttpResponse

/-- `get_acces_token` (`src/auth/mod.rs` lines 23-72), response handling. On a
transport error the error is wrapped and surfaced. On a non-success status an
error carrying the status is returned. On a success status the body is parsed
as JSON (the `?` on `response.json()` fails the whole call when the body is
not valid JSON); then `serde_json::from_value` is tried and, on a decode
error, `unwrap_or_else` falls back to field-by-field extraction with
`unwrap_or_default` / `unwrap_or(0)` defaults (the fallback reads
`refresh_token_expires_in` from the `x_refresh_token_expires_in` key). -/
def get_acces_token (res : TransportResult) : Except String AccessToken :=
  match res with
  | .error e => .error e
  | .ok response =>
    if status_is_success response.status then
      match response.body with
      | none => .error "error decoding response body"
      | some json =>
        match AccessToken.from_value json with
        | some token => .ok token
        | none =>
          .ok { token_type := ((json.index "token_type").as_str).getD ""
                access_token := ((json.index "access_token").as_str).getD ""
                expires_in := ((json.index "expires_in").as_i64).getD 0
                refresh_token := ((json.index "refresh_token").as_str).getD ""
                refresh_token_expires_in :=
                  ((json.index "x_refresh_token_expires_in").as_i64).getD 0
                scope := ((json.index "scope").as_str).getD "" }
    else .error ("Failed to retrieve access token: " ++ toString response.status)

/-- `refresh_acces_token` (`src/auth/mod.rs` lines 74-97), response handling.
On a success status the code runs `response.json().await.unwrap()` and then
`json["access_token"].as_str().unwrap()`: both `unwrap`s panic (modelled as
`none`) when the body is not valid JSON, respectively when it lacks a string
`access_token` field. Non-success status and transport errors become `Err`
strings. -/
def refresh_acces_token (res : TransportResult) : Option (Except String String) :=
  match res with
  | .error e => some (.error ("Request error: " ++ e))
  | .ok response =>
    if status_is_success response.status then
      match response.body with
      | none => none
      | some json =>
        match (json.index "access_token").as_str with
        | none => none
        | some s => some (.ok s)
    else some (.error ("Failed to refresh token: " ++ toString response.status))

/-- Concrete credentials used to instantiate the theorems below. -/
def sample_creds : ClientCredentials :=
  { client_id := "cid"
    client_secret := "secret"
    redirect_uri := "https://app/cb"
    refresh_token := "old-rtok" }

/-- An already-expired initial token (relative expiry 0 seconds). -/
def sample_expired_token : AccessToken :=
  { AccessToken.default with
      access_token := "old-atok", refresh_token := "old-rtok", expires_in := 0 }

/-- A fresh initial token valid for an hour. -/
def sample_fresh_token : AccessToken :=
  { AccessToken.default with
      access_token := "atok", refresh_token := "rtok", expires_in := 3600 }

/-- The refresh endpoint's reply as §4.4 describes it: a new access token, an
expiry, and no `refresh_token` field (serde defaults it to `""`). -/
def sample_refresh_reply : AccessToken :=
  { AccessToken.default with access_token := "new-atok", expires_in := 3600 }

/-- A JSON body a success response could carry that does not decode into the
`AccessToken` shape (`expires_in` is a string, not an integer). -/
def sample_bad_body : JsonValue := .obj [("expires_in", .str "soon")]

/-- Claim C1: on a failed refresh exchange, `update_access_token` leaves the
manager unchanged (old token data retained), invokes no refresh handler, and
returns the error; `refresh_access_token_check` likewise never mutates state
nor notifies on a failed exchange, and propagates the error whenever it
attempts the refresh (auto-refresh on, token invalid). -/
theorem update_access_token_failed_refresh_frame
    (c : GoogleClient) (e : String) (now : Int) :
    c.update_access_token (.error e) now = (c, [], .error e) ∧
    (c.refresh_access_token_check (.error e) now).1 = c ∧
    (c.refresh_access_token_check (.error e) now).2.1 = [] ∧
    (c.auto_refresh_token = true → c.is_access_token_valid now = false →
      c.refresh_access_token_check (.error e) now = (c, [], .error e)) := by
  refine ⟨rfl, ?_, ?_, ?_⟩
  · by_cases h : (c.auto_refresh_token && !(c.is_access_token_valid now)) = true <;>
      simp [GoogleClient.refresh_access_token_check, GoogleClient.update_access_token, h]
  · by_cases h : (c.auto_refresh_token && !(c.is_access_token_valid now)) = true <;>
      simp [GoogleClient.refresh_access_token_check, GoogleClient.update_access_token, h]
  · intro h1 h2
    simp [GoogleClient.refresh_access_token_check, GoogleClient.update_access_token, h1, h2]

/-- Witness for C1 at a concrete expired manager with auto-refresh enabled. -/
theorem update_access_token_failed_refresh_frame_witness :
    (GoogleClient.new sample_creds sample_expired_token true 0).refresh_access_token_check
        (.error "boom") 5000 =
      (GoogleClient.new sample_creds sample_expired_token true 0, [], .error "boom") :=
  (update_access_token_failed_refresh_frame
    (GoogleClient.new sample_creds sample_expired_token true 0) "boom" 5000).2.2.2
    rfl (by decide)

/-- Claim C2 (refutation on the code): after a successful refresh whose reply
omits `refresh_token`, the manager's stored token data holds the reply's
(empty) refresh token, not the original one. Before the refresh the stored
refresh token is "old-rtok"; afterwards it is "" while the access token was
replaced — `update_access_token` installs the converted reply wholesale. -/
theorem update_access_token_drops_stored_refresh_token :
    ((GoogleClient.new sample_creds sample_expired_token true 0).access_token.map
        (fun td => td.refresh_token)) = some "old-rtok" ∧
    ((((GoogleClient.new sample_creds sample_expired_token true 0).update_access_token
        (.ok sample_refresh_reply) 1000).1).access_token.map
        (fun td => td.refresh_token)) = some "" ∧
    ((((GoogleClient.new sample_creds sample_expired_token true 0).update_access_token
        (.ok sample_refresh_reply) 1000).1).access_token.map
        (fun td => td.access_token)) = some "new-atok" :=
  ⟨rfl, rfl, rfl⟩

/-- Claim C3: on a successful refresh every registered handler is called
exactly once, in registration order, with the stored new
(access token, refresh token, expiry) triple, as part of the operation
(before it returns `Ok`); a failed refresh calls no handler; construction
registers no handlers; registration appends. -/
theorem update_access_token_notifies_handlers_in_order
    (c : GoogleClient) (tok : AccessToken) (e : String) (now : Int)
    (creds : ClientCredentials) (tok0 : AccessToken) (auto : Bool) (handler : Nat) :
    (c.update_access_token (.ok tok) now).2.1 =
      c.refresh_handlers.map (fun h =>
        (h, tok.access_token, tok.refresh_token, now + durationSeconds tok.expires_in)) ∧
    (c.update_access_token (.ok tok) now).2.2 = .ok () ∧
    (c.update_access_token (.error e) now).2.1 = [] ∧
    (GoogleClient.new creds tok0 auto now).refresh_handlers = [] ∧
    (c.add_token_refresh_handler handler).refresh_handlers =
      c.refresh_handlers ++ [handler] :=
  ⟨rfl, rfl, rfl, rfl, rfl⟩

/-- Claim C4: `refresh_access_token_check` is the identity (no state change,
no handler call, `Ok`) whenever auto-refresh is off or the token is valid, and
performs exactly `update_access_token` when auto-refresh is on and the token
is invalid. -/
theorem refresh_access_token_check_conditional
    (c : GoogleClient) (r : Except String AccessToken) (now : Int) :
    (c.auto_refresh_token = false ∨ c.is_access_token_valid now = true →
      c.refresh_access_token_check r now = (c, [], .ok ())) ∧
    (c.auto_refresh_token = true → c.is_access_token_valid now = false →
      c.refresh_access_token_check r now = c.update_access_token r now) := by
  constructor
  · intro h
    have hcond : (c.auto_refresh_token && !(c.is_access_token_valid now)) = false := by
      rcases h with h | h <;> simp [h]
    simp [GoogleClient.refresh_access_token_check, hcond]
  · intro h1 h2
    simp [GoogleClient.refresh_access_token_check, h1, h2]

/-- Witness for C4: a disabled-auto-refresh expired manager and a valid-token
manager are both left untouched with no refresh attempted. -/
theorem refresh_access_token_check_conditional_witness :
    (GoogleClient.new sample_creds sample_expired_token false 0).refresh_access_token_check
        (.error "net down") 5000 =
      (GoogleClient.new sample_creds sample_expired_token false 0, [], .ok ()) ∧
    (GoogleClient.new sample_creds sample_fresh_token true 0).refresh_access_token_check
        (.error "net down") 5000 =
      (GoogleClient.new sample_creds sample_fresh_token true 0, [], .ok ()) :=
  ⟨(refresh_access_token_check_conditional
      (GoogleClient.new sample_creds sample_expired_token false 0)
      (.error "net down") 5000).1 (Or.inl rfl),
   (refresh_access_token_check_conditional
      (GoogleClient.new sample_creds sample_fresh_token true 0)
      (.error "net down") 5000).1 (Or.inr (by decide))⟩

/-- Claim C5: `is_access_token_valid` is the pure predicate `now < expires_on`
on the stored token data (it returns only a `Bool`, touching no state), and a
manager constructed from a token with `expires_in = e > 0` is valid at the
construction instant and invalid at every instant at or after
construction + `e` seconds. -/
theorem is_access_token_valid_pure_predicate
    (c : GoogleClient) (td : ClientTokenData) (now : Int)
    (creds : ClientCredentials) (tok : AccessToken) (auto : Bool) (e T t : Int) :
    (c.access_token = some td →
      (c.is_access_token_valid now = true ↔ now < td.expires_on)) ∧
    (0 < e → tok.expires_in = e →
      (GoogleClient.new creds tok auto T).is_access_token_valid T = true) ∧
    (0 < e → tok.expires_in = e → T + durationSeconds e ≤ t →
      (GoogleClient.new creds tok auto T).is_access_token_valid t = false) := by
  refine ⟨?_, ?_, ?_⟩
  · intro h
    simp [GoogleClient.is_access_token_valid, h]
  · intro he hin
    simp [GoogleClient.new, GoogleClient.is_access_token_valid,
      ClientTokenData.fromAccessToken, durationSeconds, hin]
    omega
  · intro he hin ht
    simp [durationSeconds] at ht
    simp [GoogleClient.new, GoogleClient.is_access_token_valid,
      ClientTokenData.fromAccessToken, durationSeconds, hin]
    omega

/-- Witness for C5 with `e = 3600`, construction at instant 0: valid at 0,
invalid at the expiry instant. -/
theorem is_access_token_valid_pure_predicate_witness :
    (GoogleClient.new sample_creds sample_fresh_token false 0).is_access_token_valid 0 = true ∧
    (GoogleClient.new sample_creds sample_fresh_token false 0).is_access_token_valid
      (durationSeconds 3600) = false :=
  ⟨(is_access_token_valid_pure_predicate GoogleClient.default
      { access_token := "", expires_on := 0, refresh_token := "" } 0
      sample_creds sample_fresh_token false 3600 0 (durationSeconds 3600)).2.1
      (by decide) rfl,
   (is_access_token_valid_pure_predicate GoogleClient.default
      { access_token := "", expires_on := 0, refresh_token := "" } 0
      sample_creds sample_fresh_token false 3600 0 (durationSeconds 3600)).2.2
      (by decide) rfl (by decide)⟩

/-- Claim C6: converting an `AccessToken` at instant `T` yields
`expires_on = T + expires_in` seconds exactly (for `expires_in = 3600`,
`T + 3600` seconds), and a refresh installs exactly this once-computed value
as the stored token data. -/
theorem client_token_data_expires_on_exact
    (c : GoogleClient) (tok : AccessToken) (T : Int) :
    (ClientTokenData.fromAccessToken tok T).expires_on =
      T + durationSeconds tok.expires_in ∧
    (tok.expires_in = 3600 →
      (ClientTokenData.fromAccessToken tok T).expires_on = T + durationSeconds 3600) ∧
    ((c.update_access_token (.ok tok) T).1).access_token =
      some (ClientTokenData.fromAccessToken tok T) := by
  refine ⟨rfl, ?_, rfl⟩
  intro h
  simp [ClientTokenData.fromAccessToken, h]

/-- Witness for C6 at `expires_in = 3600`, `T = 1000`. -/
theorem client_token_data_expires_on_exact_witness :
    (ClientTokenData.fromAccessToken sample_fresh_token 1000).expires_on =
      1000 + durationSeconds 3600 :=
  (client_token_data_expires_on_exact GoogleClient.default sample_fresh_token 1000).2.1 rfl

/-- Claim C7 (refutation on the code): `Scope::as_str` is total by
construction, but it is not injective: the distinct variants
`CalendarEventsPublicReadonly` and `CalendarReadOnly` both map to the
`calendar.readonly` permission string. -/
theorem scope_as_str_collision :
    Scope.CalendarEventsPublicReadonly ≠ Scope.CalendarReadOnly ∧
    Scope.as_str .CalendarEventsPublicReadonly = Scope.as_str .CalendarReadOnly ∧
    Scope.as_str .CalendarEventsPublicReadonly =
      "https://www.googleapis.com/auth/calendar.readonly" :=
  ⟨by decide, rfl, rfl⟩

/-- Contrast lemma for the bearer-header behaviour: in the `client.rs`
revision of `update_access_token` (lines 182-196) a successful refresh does
rebuild the HTTP client via `build_default_reqwest_client`, so there the
Authorization header is `Bearer <new access token>` and agrees with the
stored token data — the behaviour the spec describes. -/
theorem client_rs_update_access_token_rebuilds_bearer_header
    (c : GoogleClient) (tok : AccessToken) (now : Int) :
    ((c.update_access_token (.ok tok) now).1).req_client =
      build_default_reqwest_client tok.access_token ∧
    ((c.update_access_token (.ok tok) now).1).access_token =
      some (ClientTokenData.fromAccessToken tok now) ∧
    ((c.update_access_token (.ok tok) now).1).req_client.authorization =
      some ("Bearer " ++ (ClientTokenData.fromAccessToken tok now).access_token) :=
  ⟨rfl, rfl, rfl⟩

/-- Claim C8 (refutation on the cited code): the `types.rs` revision of
`update_access_token` (`src/auth/types.rs` lines 210-228, the one
`calendar/events/requests.rs` consumes) installs the new token data and
returns `Ok`, but never rebuilds `req_client`: starting from a manager built
with access token "old-atok", after a successful refresh to "new-atok" the
stored access token is "new-atok" while the Authorization header still reads
"Bearer old-atok" — the bearer header does not match the currently stored
access token. -/
theorem update_access_token_types_variant_stale_bearer_header :
    (((GoogleClient.new sample_creds sample_expired_token true 0).update_access_token_types_variant
        (.ok sample_refresh_reply) 1000).1).access_token.map (fun td => td.access_token) =
      some "new-atok" ∧
    (((GoogleClient.new sample_creds sample_expired_token true 0).update_access_token_types_variant
        (.ok sample_refresh_reply) 1000).2.2) = .ok () ∧
    (((GoogleClient.new sample_creds sample_expired_token true 0).update_access_token_types_variant
        (.ok sample_refresh_reply) 1000).1).req_client.authorization =
      some ("Bearer " ++ "old-atok") ∧
    (((GoogleClient.new sample_creds sample_expired_token true 0).update_access_token_types_variant
        (.ok sample_refresh_reply) 1000).1).req_client.authorization ≠
      some ("Bearer " ++ "new-atok") :=
  ⟨rfl, rfl, rfl, by decide⟩

/-- Claim C10: validity is total over all manager states: with no stored token
data (e.g. a default-constructed manager) `is_access_token_valid` returns
`false` instead of failing. -/
theorem is_access_token_valid_total_without_token
    (c : GoogleClient) (now : Int) (h : c.access_token = none) :
    c.is_access_token_valid now = false := by
  simp [GoogleClient.is_access_token_valid, h]

/-- Witness for C10: the default-constructed manager. -/
theorem is_access_token_valid_total_without_token_witness :
    GoogleClient.default.is_access_token_valid 0 = false :=
  is_access_token_valid_total_without_token GoogleClient.default 0 rfl

/-- Claim C9, counterexample: on HTTP status 200 with a body that is not valid
JSON, `get_acces_token` fails (the `?` on `response.json()` propagates the
decode error, so the lenient fallback is never reached), refuting "never
fails"; and `refresh_acces_token` panics on its `unwrap` (modelled `none`)
instead of returning an error — also when the body is valid JSON without a
string `access_token` field — refuting "surfaced to the caller as an error". -/
theorem token_exchange_malformed_body_cex :
    get_acces_token (.ok { status := 200, body := none }) =
      .error "error decoding response body" ∧
    refresh_acces_token (.ok { status := 200, body := none }) = none ∧
    refresh_acces_token (.ok { status := 200, body := some (.obj []) }) = none :=
  ⟨rfl, rfl, rfl⟩

/-- Claim C9 as amended: on a success status whose body parses as JSON,
`get_acces_token` never fails — a body that misses the `AccessToken` shape is
recovered by field-by-field extraction defaulting every missing field to the
empty string or zero; a body that is not valid JSON at all is surfaced as an
error. In the refresh exchange a success status with an undecodable body
(unparseable JSON, or JSON without a string `access_token`) makes
`refresh_acces_token` panic on `unwrap` rather than return anything. -/
theorem token_exchange_malformed_body_policy
    (status : Nat) (j : JsonValue) (hs : status_is_success status = true) :
    (AccessToken.from_value j = none →
      get_acces_token (.ok { status := status, body := some j }) =
        .ok { token_type := ((j.index "token_type").as_str).getD ""
              access_token := ((j.index "access_token").as_str).getD ""
              expires_in := ((j.index "expires_in").as_i64).getD 0
              refresh_token := ((j.index "refresh_token").as_str).getD ""
              refresh_token_expires_in :=
                ((j.index "x_refresh_token_expires_in").as_i64).getD 0
              scope := ((j.index "scope").as_str).getD "" }) ∧
    (∀ tok, AccessToken.from_value j = some tok →
      get_acces_token (.ok { status := status, body := some j }) = .ok tok) ∧
    get_acces_token (.ok { status := status, body := none }) =
      .error "error decoding response body" ∧
    refresh_acces_token (.ok { status := status, body := none }) = none ∧
    ((j.index "access_token").as_str = none →
      refresh_acces_token (.ok { status := status, body := some j }) = none) := by
  refine ⟨?_, ?_, ?_, ?_, ?_⟩
  · intro hdec
    simp [get_acces_token, hs, hdec]
  · intro tok hdec
    simp [get_acces_token, hs, hdec]
  · simp [get_acces_token, hs]
  · simp [refresh_acces_token, hs]
  · intro hstr
    simp [refresh_acces_token, hs, hstr]

/-- Witness for amended C9: status 200 with a JSON body whose `expires_in` is
a string falls back to all-default extraction; an empty JSON object makes the
refresh exchange panic. -/
theorem token_exchange_malformed_body_policy_witness :
    get_acces_token (.ok { status := 200, body := some sample_bad_body }) =
      .ok { token_type := ""
            access_token := ""
            expires_in := 0
            refresh_token := ""
            refresh_token_expires_in := 0
            scope := "" } ∧
    refresh_acces_token (.ok { status := 200, body := some (.obj []) }) = none :=
  ⟨(token_exchange_malformed_body_policy 200 sample_bad_body rfl).1 rfl,
   (token_exchange_malformed_body_policy 200 (.obj []) rfl).2.2.2.2 rfl⟩
